import Mathlib

/-!
Verification of the smart-phone voice client and backend services.

The development shallowly embeds:
  - the energy/zero-crossing voice-activity detector of
    termux-client/alternative_audio_handler.py (is_speech_frame and the
    record_voice_until_silence loop),
  - the provider lifecycle of the backend STT / TTS / LLM services
    (initialize / cleanup / invoke dispatch),
  - the configuration sanitizer Config.get_sanitized_config.

Machine integers are modelled as Int with explicit wrap-around where the
source relies on a fixed width (the astype(np.int32) squaring); exact
rational arithmetic stands in for numpy floating point in threshold
comparisons.
-/

namespace SmartPhone

/-! ## Voice activity detection: frame classification

Source: termux-client/alternative_audio_handler.py, is_speech_frame.
A frame is a list of int16 samples.  The source widens samples to int32
(astype(np.int32)) before squaring; int32 arithmetic wraps modulo 2^32,
which wrap32 makes explicit. -/

/-- Two-complement wrap of an integer into the int32 range. -/
def wrap32 (x : Int) : Int := (x + 2 ^ 31) % 2 ^ 32 - 2 ^ 31

/-- Value of np.sign on an integer sample. -/
def npSign (x : Int) : Int := if 0 < x then 1 else if x < 0 then -1 else 0

/-- Count of indices where np.diff of the sign sequence is nonzero, as the
source computes it: np.sum(np.abs(np.diff(np.sign(frame))) > 0). -/
def signDiffCount (xs : List Int) : Nat :=
  (((xs.map npSign).zip ((xs.map npSign).drop 1))).countP
    (fun p => decide (0 < (p.2 - p.1).natAbs))

/-- Count of adjacent sample pairs whose signs differ; this is the
spec-level description of the quantity signDiffCount computes. -/
def specSignChanges (xs : List Int) : Nat :=
  ((xs.zip (xs.drop 1))).countP (fun p => decide (npSign p.1 ≠ npSign p.2))

/-- ENERGY_THRESHOLD from the source (1000000). -/
def ENERGY_THRESHOLD : ℚ := 1000000

/-- ZCR_MIN from the source (0.05). -/
def ZCR_MIN : ℚ := 1 / 20

/-- Frame energy as the source computes it:
np.sum(frame.astype(np.int32) ** 2) / len(frame), the per-sample squares
taken in int32 arithmetic. -/
def frameEnergy (xs : List Int) : ℚ :=
  (((xs.map (fun s => wrap32 (s * s))).sum : Int) : ℚ) / (xs.length : ℚ)

/-- Zero-crossing rate as the source computes it; frames of length at most
one yield 0. -/
def frameZcr (xs : List Int) : ℚ :=
  if xs.length ≤ 1 then 0
  else (signDiffCount xs : ℚ) / ((xs.length - 1 : Nat) : ℚ)

/-- Frame classifier is_speech_frame from the source: empty frames are
rejected, otherwise speech requires energy and zero-crossing rate both
strictly above their thresholds. -/
def is_speech_frame (xs : List Int) : Bool :=
  if xs.length = 0 then false
  else decide (ENERGY_THRESHOLD < frameEnergy xs) && decide (ZCR_MIN < frameZcr xs)

/-- Mean of the exact (unwrapped) squared samples; this is the spec-level
description of the frame energy. -/
def specEnergy (xs : List Int) : ℚ :=
  (((xs.map (fun s => s * s)).sum : Int) : ℚ) / (xs.length : ℚ)

/-! ## Voice activity detection: the recording loop

Source: termux-client/alternative_audio_handler.py,
record_voice_until_silence.  The loop keeps a buffer of frames, a count of
consecutive silent frames, a cumulative count of speech frames, and a
speaking flag; it stops either on confirmed silence
(silence_frames > SILENCE_FRAMES_THRESHOLD and
high_energy > HIGH_ENERGY_FRAMES_THRESHOLD) or on timeout
(silence_frames > NON_RELEVANT_SILENCE_FRAMES_THRESHOLD). -/

/-- SILENCE_FRAMES_THRESHOLD from the source (20 frames, about 600 ms). -/
def SILENCE_FRAMES_THRESHOLD : Nat := 20

/-- NON_RELEVANT_SILENCE_FRAMES_THRESHOLD from the source (120 frames). -/
def NON_RELEVANT_SILENCE_FRAMES_THRESHOLD : Nat := 120

/-- HIGH_ENERGY_FRAMES_THRESHOLD from the source (5 frames). -/
def HIGH_ENERGY_FRAMES_THRESHOLD : Nat := 5

/-- Mutable state of the record_voice_until_silence loop. -/
structure VadState where
  buffer : List (List Int)
  silence_frames : Nat
  high_energy : Nat
  speaking : Bool
deriving DecidableEq, Repr

/-- Initial loop state: empty buffer, zero counters, not speaking. -/
def vadInit : VadState := ⟨[], 0, 0, false⟩

/-- Reason the loop broke out of its while-True. -/
inductive StopReason where
  | confirmedSilence
  | timeout
deriving DecidableEq, Repr

/-- One iteration of the loop body on one captured frame: either the loop
continues with an updated state (inl) or it breaks (inr), carrying the
state at the break and the branch that fired. -/
def vadStep (s : VadState) (f : List Int) : VadState ⊕ (VadState × StopReason) :=
  if is_speech_frame f then
    Sum.inl { s with
      high_energy := s.high_energy + 1
      speaking := true
      buffer := s.buffer ++ [f]
      silence_frames := 0 }
  else if s.speaking then
    if s.silence_frames + 1 > SILENCE_FRAMES_THRESHOLD ∧
        s.high_energy > HIGH_ENERGY_FRAMES_THRESHOLD then
      Sum.inr ({ s with silence_frames := s.silence_frames + 1 },
        StopReason.confirmedSilence)
    else if s.silence_frames + 1 > NON_RELEVANT_SILENCE_FRAMES_THRESHOLD then
      Sum.inr ({ s with silence_frames := s.silence_frames + 1 },
        StopReason.timeout)
    else
      Sum.inl { s with
        silence_frames := s.silence_frames + 1
        buffer := s.buffer ++ [f] }
  else
    Sum.inl s

/-- Run of the loop over a finite sequence of captured frames: final state,
the stop reason when a break fired within the sequence, and the number of
frames actually read before stopping. -/
def vadRun (s : VadState) : List (List Int) → VadState × Option StopReason × Nat
  | [] => (s, none, 0)
  | f :: fs =>
    match vadStep s f with
    | Sum.inl s1 =>
        let r := vadRun s1 fs
        (r.1, r.2.1, r.2.2 + 1)
    | Sum.inr (s1, reason) => (s1, some reason, 1)

/-- States at which each frame of the sequence is processed (the state
before the corresponding iteration), up to and including the iteration
that breaks. -/
def vadTrace (s : VadState) : List (List Int) → List VadState
  | [] => []
  | f :: fs =>
    s :: (match vadStep s f with
      | Sum.inl s1 => vadTrace s1 fs
      | Sum.inr _ => [])

/-- Bytes returned by record_voice_until_silence on a captured frame
sequence: the concatenation of the buffered frames. -/
def record_voice_until_silence (frames : List (List Int)) : List Int :=
  ((vadRun vadInit frames).1.buffer).flatten

/-- State carried forward by one loop iteration, whether the iteration
continues or breaks. -/
def vadStepState (s : VadState) (f : List Int) : VadState :=
  match vadStep s f with
  | Sum.inl s1 => s1
  | Sum.inr (s1, _) => s1

/-- Concrete frame classified as speech: energy 1210000 > 1000000 and
zero-crossing rate 1 > 0.05. -/
def speechFrameEx : List Int := [1100, -1100]

/-- Concrete frame classified as silence (energy 0). -/
def silenceFrameEx : List Int := [0]

/-- Six speech frames (one more than HIGH_ENERGY_FRAMES_THRESHOLD). -/
def preEx6 : List (List Int) := List.replicate 6 speechFrameEx

/-- Three speech frames (below HIGH_ENERGY_FRAMES_THRESHOLD). -/
def preEx3 : List (List Int) := List.replicate 3 speechFrameEx

/-- Twenty-one silence frames (one more than SILENCE_FRAMES_THRESHOLD). -/
def postEx21 : List (List Int) := List.replicate 21 silenceFrameEx

/-- One hundred twenty-one silence frames (one more than
NON_RELEVANT_SILENCE_FRAMES_THRESHOLD). -/
def postEx121 : List (List Int) := List.replicate 121 silenceFrameEx

/-! ## Backend services: provider lifecycle

Source: backend-server/services/stt_service.py, tts_service.py,
llm_service.py.  Each service keeps a provider name, a client handle and
an availability flag.  The initialize methods consult the configured
provider name and either succeed (the provider-specific helper returns) or
fail (the helper raises); the Boolean parameter ok models whether the
provider-specific initialization succeeds.  cleanup drops the client and
the flag; the invoke methods dispatch on the stored provider. -/

/-- State of STTService: the configured provider, whether self.client is
set, whether self.whisper_model is set, and the _available flag. -/
structure STTState where
  provider : Option String
  hasClient : Bool
  hasWhisperModel : Bool
  available : Bool
deriving DecidableEq, Repr

/-- State of STTService.__init__: no provider, no client, unavailable. -/
def sttNew : STTState := ⟨none, false, false, false⟩

/-- STTService.initialize: whisper loads a model (self.client untouched);
openai, google and azure set self.client; an unknown provider name
returns early leaving the state unchanged; a raising helper leaves
everything but _available (set to False) unchanged. -/
def sttInitService (s : STTState) (providerName : String) (ok : Bool) : STTState :=
  if providerName = "whisper" then
    if ok then
      { s with hasWhisperModel := true, provider := some "whisper", available := true }
    else { s with available := false }
  else if providerName = "openai" ∨ providerName = "google" ∨ providerName = "azure" then
    if ok then
      { s with hasClient := true, provider := some providerName, available := true }
    else { s with available := false }
  else s

/-- STTService.cleanup: client dropped, _available cleared; the provider
and whisper model fields keep their values. -/
def sttCleanup (s : STTState) : STTState :=
  { s with hasClient := false, available := false }

/-- Control-flow outcome of STTService.transcribe before any provider
work: the whisper path goes straight to transcription, the generic path
first checks _available and the client. -/
inductive STTAction where
  | attemptWhisper
  | unavailableReturn
  | attemptProvider (name : String)
  | unknownReturn
deriving DecidableEq, Repr

/-- Dispatch of STTService.transcribe on the service state. -/
def sttTranscribeDispatch (s : STTState) : STTAction :=
  if s.provider = some "whisper" then STTAction.attemptWhisper
  else if s.available = false ∨ s.hasClient = false then STTAction.unavailableReturn
  else if s.provider = some "openai" then STTAction.attemptProvider "openai"
  else if s.provider = some "google" then STTAction.attemptProvider "google"
  else if s.provider = some "azure" then STTAction.attemptProvider "azure"
  else STTAction.unknownReturn

/-- State of TTSService: provider, client handle, _available flag. -/
structure TTSState where
  provider : Option String
  hasClient : Bool
  available : Bool
deriving DecidableEq, Repr

/-- State of TTSService.__init__. -/
def ttsNew : TTSState := ⟨none, false, false⟩

/-- TTSService.initialize over providers openai, google, azure and
elevenlabs. -/
def ttsInitService (s : TTSState) (providerName : String) (ok : Bool) : TTSState :=
  if providerName = "openai" ∨ providerName = "google" ∨ providerName = "azure" ∨
      providerName = "elevenlabs" then
    if ok then
      { s with hasClient := true, provider := some providerName, available := true }
    else { s with available := false }
  else s

/-- TTSService.cleanup. -/
def ttsCleanup (s : TTSState) : TTSState :=
  { s with hasClient := false, available := false }

/-- Control-flow outcome of TTSService.synthesize before provider work. -/
inductive TTSAction where
  | unavailableReturn
  | attemptProvider (name : String)
  | unknownReturn
deriving DecidableEq, Repr

/-- Dispatch of TTSService.synthesize on the service state: the
availability guard runs first for every payload. -/
def ttsSynthesizeDispatch (s : TTSState) : TTSAction :=
  if s.available = false ∨ s.hasClient = false then TTSAction.unavailableReturn
  else if s.provider = some "openai" then TTSAction.attemptProvider "openai"
  else if s.provider = some "google" then TTSAction.attemptProvider "google"
  else if s.provider = some "azure" then TTSAction.attemptProvider "azure"
  else if s.provider = some "elevenlabs" then TTSAction.attemptProvider "elevenlabs"
  else TTSAction.unknownReturn

/-- State of LLMService: provider, client handle, _available flag. -/
structure LLMState where
  provider : Option String
  hasClient : Bool
  available : Bool
deriving DecidableEq, Repr

/-- State of LLMService.__init__. -/
def llmNew : LLMState := ⟨none, false, false⟩

/-- LLMService.initialize over providers openai, anthropic and ollama. -/
def llmInitService (s : LLMState) (providerName : String) (ok : Bool) : LLMState :=
  if providerName = "openai" ∨ providerName = "anthropic" ∨ providerName = "ollama" then
    if ok then
      { s with hasClient := true, provider := some providerName, available := true }
    else { s with available := false }
  else s

/-- LLMService.cleanup. -/
def llmCleanup (s : LLMState) : LLMState :=
  { s with hasClient := false, available := false }

/-- Control-flow outcome of LLMService.generate_response before provider
work. -/
inductive LLMAction where
  | unavailableReturn
  | attemptProvider (name : String)
  | unknownReturn
deriving DecidableEq, Repr

/-- Dispatch of LLMService.generate_response on the service state: the
availability guard runs first for every payload. -/
def llmGenerateDispatch (s : LLMState) : LLMAction :=
  if s.available = false ∨ s.hasClient = false then LLMAction.unavailableReturn
  else if s.provider = some "openai" then LLMAction.attemptProvider "openai"
  else if s.provider = some "anthropic" then LLMAction.attemptProvider "anthropic"
  else if s.provider = some "ollama" then LLMAction.attemptProvider "ollama"
  else LLMAction.unknownReturn

/-- A service state with _available = False on which transcribe still
attempts the whisper provider: reached by a successful whisper
initialization followed by cleanup. -/
def sttAfterCleanup : STTState := sttCleanup (sttInitService sttNew "whisper" true)

/-- Provider names STTService.initialize recognizes. -/
def sttKnown (name : String) : Prop :=
  name = "whisper" ∨ name = "openai" ∨ name = "google" ∨ name = "azure"

/-- Provider names TTSService.initialize recognizes. -/
def ttsKnown (name : String) : Prop :=
  name = "openai" ∨ name = "google" ∨ name = "azure" ∨ name = "elevenlabs"

/-- Provider names LLMService.initialize recognizes. -/
def llmKnown (name : String) : Prop :=
  name = "openai" ∨ name = "anthropic" ∨ name = "ollama"

/-- Characterization of a failing initialize call: the provider name is
unknown, or the provider-specific helper raises. -/
def initFailing (known : Prop) (ok : Bool) : Prop := ¬known ∨ ok = false

/-! ## Configuration sanitizer

Source: backend-server/config.py, Config.get_sanitized_config.  The
configuration is a JSON value (the deep copy goes through
json.loads(json.dumps(...))); remove_sensitive walks dictionaries,
replacing the value of any key whose lowercased name contains a sensitive
word, and recursing into the other values only when they are themselves
dictionaries -- values of other shapes, lists included, are left as they
are. -/

/-- JSON value, the shape of the deep-copied configuration. -/
inductive JVal where
  | str : String → JVal
  | num : Int → JVal
  | boolean : Bool → JVal
  | null : JVal
  | arr : List JVal → JVal
  | obj : List (String × JVal) → JVal
deriving Repr

mutual

/-- Structural equality test on JSON values. -/
def jvalBEq : JVal → JVal → Bool
  | JVal.str a, JVal.str b => a == b
  | JVal.num a, JVal.num b => a == b
  | JVal.boolean a, JVal.boolean b => a == b
  | JVal.null, JVal.null => true
  | JVal.arr a, JVal.arr b => jvalListBEq a b
  | JVal.obj a, JVal.obj b => jvalEntriesBEq a b
  | _, _ => false

/-- Structural equality test on JSON arrays. -/
def jvalListBEq : List JVal → List JVal → Bool
  | [], [] => true
  | a :: as, b :: bs => jvalBEq a b && jvalListBEq as bs
  | _, _ => false

/-- Structural equality test on JSON object entry lists. -/
def jvalEntriesBEq : List (String × JVal) → List (String × JVal) → Bool
  | [], [] => true
  | (k1, v1) :: as, (k2, v2) :: bs =>
    (k1 == k2) && jvalBEq v1 v2 && jvalEntriesBEq as bs
  | _, _ => false

end

/-- Whether the first character list occurs at the head of the second. -/
def leadMatch : List Char → List Char → Bool
  | [], _ => true
  | _ :: _, [] => false
  | a :: as, b :: bs => (a == b) && leadMatch as bs

/-- Whether the first character list occurs anywhere in the second, the
Python substring test. -/
def containsChars (needle : List Char) : List Char → Bool
  | [] => leadMatch needle []
  | c :: rest => leadMatch needle (c :: rest) || containsChars needle rest

/-- The sensitive_keys list from get_sanitized_config. -/
def sensitive_keys : List String := ["api_key", "password", "secret", "token"]

/-- The test `any(sensitive in key.lower() for sensitive in sensitive_keys)`
from remove_sensitive. -/
def isSensitiveKey (k : String) : Bool :=
  sensitive_keys.any (fun w => containsChars w.data (k.data.map Char.toLower))

mutual

/-- The remove_sensitive walk: sensitive keys of a dictionary get the
value replaced by the string marker, other dictionary values are walked
recursively; values that are not dictionaries are returned untouched. -/
def sanitizeVal : JVal → JVal
  | JVal.obj kvs => JVal.obj (sanitizeEntries kvs)
  | v => v

/-- The remove_sensitive walk over the entries of one dictionary. -/
def sanitizeEntries : List (String × JVal) → List (String × JVal)
  | [] => []
  | (k, v) :: rest =>
    (if isSensitiveKey k then (k, JVal.str "***") else (k, sanitizeVal v)) ::
      sanitizeEntries rest

end

/-- Config.get_sanitized_config on the deep-copied configuration value. -/
def get_sanitized_config (config : JVal) : JVal := sanitizeVal config

mutual

/-- Agreement of two JSON values everywhere except possibly at the values
stored under sensitive keys of dictionaries reachable through
dictionaries only. -/
def sensEquiv : JVal → JVal → Bool
  | JVal.obj kvs1, JVal.obj kvs2 => sensEquivEntries kvs1 kvs2
  | v1, v2 => jvalBEq v1 v2

/-- Entry-list version of sensEquiv. -/
def sensEquivEntries : List (String × JVal) → List (String × JVal) → Bool
  | [], [] => true
  | (k1, v1) :: r1, (k2, v2) :: r2 =>
    (k1 == k2) && (if isSensitiveKey k1 then true else sensEquiv v1 v2) &&
      sensEquivEntries r1 r2
  | _, _ => false

end

/-- A configuration holding a sensitive key inside a dictionary nested in
an array, with the secret value x. -/
def configArrayX : JVal :=
  JVal.obj [("a", JVal.arr [JVal.obj [("api_key", JVal.str "x")]])]

/-- The same configuration with the secret value y. -/
def configArrayY : JVal :=
  JVal.obj [("a", JVal.arr [JVal.obj [("api_key", JVal.str "y")]])]

/-! ## Lemmas about frame classification -/

lemma wrap32_eq_of_int16 (s : Int) (h1 : -32768 ≤ s) (h2 : s < 32768) :
    wrap32 (s * s) = s * s := by
  have hnn : 0 ≤ s * s := mul_self_nonneg s
  have hub : s * s ≤ 32768 * 32768 := by nlinarith
  unfold wrap32
  omega

lemma frameEnergy_eq_specEnergy (xs : List Int)
    (h : ∀ s ∈ xs, -32768 ≤ s ∧ s < 32768) :
    frameEnergy xs = specEnergy xs := by
  unfold frameEnergy specEnergy
  congr 2
  induction xs with
  | nil => rfl
  | cons a l ih =>
      have ha := h a (List.mem_cons_self a l)
      simp only [List.map_cons, List.sum_cons]
      rw [wrap32_eq_of_int16 a ha.1 ha.2,
        ih (fun s hs => h s (List.mem_cons_of_mem a hs))]

lemma signDiffCount_eq_specSignChanges (xs : List Int) :
    signDiffCount xs = specSignChanges xs := by
  unfold signDiffCount specSignChanges
  rw [← List.map_drop, List.zip_map]
  rw [List.countP_map]
  apply List.countP_congr
  intro p _
  simp only [Function.comp, Prod.map]
  constructor
  · intro h
    have h1 : 0 < (npSign p.2 - npSign p.1).natAbs := of_decide_eq_true h
    have : npSign p.2 - npSign p.1 ≠ 0 := by
      intro hc; rw [hc] at h1; simp at h1
    exact decide_eq_true (by intro hc; exact this (by rw [hc]; ring))
  · intro h
    have h1 : npSign p.1 ≠ npSign p.2 := of_decide_eq_true h
    exact decide_eq_true (by
      have : npSign p.2 - npSign p.1 ≠ 0 := sub_ne_zero.mpr (Ne.symm h1)
      omega)

lemma is_speech_frame_speechFrameEx : is_speech_frame speechFrameEx = true := by
  simp [is_speech_frame, frameEnergy, frameZcr, signDiffCount, wrap32, npSign,
    ENERGY_THRESHOLD, ZCR_MIN, speechFrameEx]
  norm_num

lemma is_speech_frame_silenceFrameEx : is_speech_frame silenceFrameEx = false := by
  simp [is_speech_frame, frameEnergy, frameZcr, signDiffCount, wrap32, npSign,
    ENERGY_THRESHOLD, ZCR_MIN, silenceFrameEx]

lemma all_speech_preEx6 : ∀ f ∈ preEx6, is_speech_frame f = true := by
  intro f hf
  rw [List.eq_of_mem_replicate hf]
  exact is_speech_frame_speechFrameEx

lemma all_speech_preEx3 : ∀ f ∈ preEx3, is_speech_frame f = true := by
  intro f hf
  rw [List.eq_of_mem_replicate hf]
  exact is_speech_frame_speechFrameEx

lemma all_silence_postEx21 : ∀ f ∈ postEx21, is_speech_frame f = false := by
  intro f hf
  rw [List.eq_of_mem_replicate hf]
  exact is_speech_frame_silenceFrameEx

lemma all_silence_postEx121 : ∀ f ∈ postEx121, is_speech_frame f = false := by
  intro f hf
  rw [List.eq_of_mem_replicate hf]
  exact is_speech_frame_silenceFrameEx

/-! ## Lemmas about the recording loop -/

lemma vadStep_speech (s : VadState) (f : List Int) (hf : is_speech_frame f = true) :
    vadStep s f = Sum.inl ⟨s.buffer ++ [f], 0, s.high_energy + 1, true⟩ := by
  simp [vadStep, hf]

lemma vadStep_silence_idle (s : VadState) (f : List Int)
    (hf : is_speech_frame f = false) (hs : s.speaking = false) :
    vadStep s f = Sum.inl s := by
  simp [vadStep, hf, hs]

lemma vadStep_silence_confirmed (s : VadState) (f : List Int)
    (hf : is_speech_frame f = false) (hs : s.speaking = true)
    (h1 : SILENCE_FRAMES_THRESHOLD < s.silence_frames + 1)
    (h2 : HIGH_ENERGY_FRAMES_THRESHOLD < s.high_energy) :
    vadStep s f =
      Sum.inr ({ s with silence_frames := s.silence_frames + 1 },
        StopReason.confirmedSilence) := by
  simp [vadStep, hf, hs, h1, h2]

lemma vadStep_silence_timeout (s : VadState) (f : List Int)
    (hf : is_speech_frame f = false) (hs : s.speaking = true)
    (hn : ¬(SILENCE_FRAMES_THRESHOLD < s.silence_frames + 1 ∧
        HIGH_ENERGY_FRAMES_THRESHOLD < s.high_energy))
    (ht : NON_RELEVANT_SILENCE_FRAMES_THRESHOLD < s.silence_frames + 1) :
    vadStep s f =
      Sum.inr ({ s with silence_frames := s.silence_frames + 1 },
        StopReason.timeout) := by
  simp only [vadStep, hf, Bool.false_eq_true, if_false, hs, if_true]
  rw [if_neg hn, if_pos ht]

lemma vadStep_silence_cont (s : VadState) (f : List Int)
    (hf : is_speech_frame f = false) (hs : s.speaking = true)
    (hn : ¬(SILENCE_FRAMES_THRESHOLD < s.silence_frames + 1 ∧
        HIGH_ENERGY_FRAMES_THRESHOLD < s.high_energy))
    (ht : s.silence_frames + 1 ≤ NON_RELEVANT_SILENCE_FRAMES_THRESHOLD) :
    vadStep s f =
      Sum.inl { s with
        silence_frames := s.silence_frames + 1
        buffer := s.buffer ++ [f] } := by
  simp only [vadStep, hf, Bool.false_eq_true, if_false, hs, if_true]
  rw [if_neg hn, if_neg (Nat.not_lt.mpr ht)]

lemma vadRun_cons_inl (s : VadState) (f : List Int) (fs : List (List Int))
    (s1 : VadState) (h : vadStep s f = Sum.inl s1) :
    vadRun s (f :: fs) =
      ((vadRun s1 fs).1, (vadRun s1 fs).2.1, (vadRun s1 fs).2.2 + 1) := by
  simp [vadRun, h]

lemma vadRun_cons_inr (s : VadState) (f : List Int) (fs : List (List Int))
    (s1 : VadState) (r : StopReason) (h : vadStep s f = Sum.inr (s1, r)) :
    vadRun s (f :: fs) = (s1, some r, 1) := by
  simp [vadRun, h]

lemma vadRun_speech_all : ∀ (pre : List (List Int)) (s : VadState),
    (∀ f ∈ pre, is_speech_frame f = true) → pre ≠ [] →
    vadRun s pre =
      (⟨s.buffer ++ pre, 0, s.high_energy + pre.length, true⟩, none, pre.length) := by
  intro pre
  induction pre with
  | nil => intro s _ hne; exact absurd rfl hne
  | cons f fs ih =>
    intro s h _
    have hf : is_speech_frame f = true := h f (List.mem_cons_self f fs)
    rw [vadRun_cons_inl s f fs _ (vadStep_speech s f hf)]
    by_cases hfs : fs = []
    · subst hfs; simp [vadRun]
    · rw [ih ⟨s.buffer ++ [f], 0, s.high_energy + 1, true⟩
        (fun g hg => h g (List.mem_cons_of_mem f hg)) hfs]
      simp [Prod.ext_iff, VadState.mk.injEq]
      omega

lemma vadRun_silence_confirmed : ∀ (post : List (List Int)) (s : VadState),
    (∀ f ∈ post, is_speech_frame f = false) → s.speaking = true →
    HIGH_ENERGY_FRAMES_THRESHOLD < s.high_energy →
    s.silence_frames ≤ SILENCE_FRAMES_THRESHOLD →
    SILENCE_FRAMES_THRESHOLD + 1 - s.silence_frames ≤ post.length →
    vadRun s post =
      (⟨s.buffer ++ post.take (SILENCE_FRAMES_THRESHOLD - s.silence_frames),
          SILENCE_FRAMES_THRESHOLD + 1, s.high_energy, true⟩,
        some StopReason.confirmedSilence,
        SILENCE_FRAMES_THRESHOLD + 1 - s.silence_frames) := by
  intro post
  induction post with
  | nil =>
    intro s _ _ _ hj hlen
    exfalso
    simp [SILENCE_FRAMES_THRESHOLD] at hj hlen
    omega
  | cons f fs ih =>
    intro s h hsp hhe hj hlen
    obtain ⟨buf, sf, he, sp⟩ := s
    simp only at hsp hhe hj hlen ⊢
    subst hsp
    have hf : is_speech_frame f = false := h f (List.mem_cons_self f fs)
    by_cases hcase : sf = SILENCE_FRAMES_THRESHOLD
    · subst hcase
      rw [vadRun_cons_inr _ f fs _ _
        (vadStep_silence_confirmed _ f hf rfl (Nat.lt_succ_self _) hhe)]
      simp
    · have hlt : sf < SILENCE_FRAMES_THRESHOLD := lt_of_le_of_ne hj hcase
      have hn : ¬(SILENCE_FRAMES_THRESHOLD < sf + 1 ∧
          HIGH_ENERGY_FRAMES_THRESHOLD < he) := by
        intro hc; omega
      have hcont := vadStep_silence_cont ⟨buf, sf, he, true⟩ f hf rfl hn
        (by simp [SILENCE_FRAMES_THRESHOLD,
          NON_RELEVANT_SILENCE_FRAMES_THRESHOLD] at hlt ⊢; omega)
      rw [vadRun_cons_inl _ f fs _ hcont]
      rw [ih ⟨buf ++ [f], sf + 1, he, true⟩
        (fun g hg => h g (List.mem_cons_of_mem f hg)) rfl hhe
        (by simpa using hlt) (by simp at hlen ⊢; omega)]
      have htake : SILENCE_FRAMES_THRESHOLD - sf =
          (SILENCE_FRAMES_THRESHOLD - (sf + 1)) + 1 := by omega
      simp [Prod.ext_iff, VadState.mk.injEq, htake, List.take_succ_cons]
      omega

lemma vadRun_silence_timeout : ∀ (post : List (List Int)) (s : VadState),
    (∀ f ∈ post, is_speech_frame f = false) → s.speaking = true →
    s.high_energy ≤ HIGH_ENERGY_FRAMES_THRESHOLD →
    s.silence_frames ≤ NON_RELEVANT_SILENCE_FRAMES_THRESHOLD →
    NON_RELEVANT_SILENCE_FRAMES_THRESHOLD + 1 - s.silence_frames ≤ post.length →
    vadRun s post =
      (⟨s.buffer ++ post.take (NON_RELEVANT_SILENCE_FRAMES_THRESHOLD - s.silence_frames),
          NON_RELEVANT_SILENCE_FRAMES_THRESHOLD + 1, s.high_energy, true⟩,
        some StopReason.timeout,
        NON_RELEVANT_SILENCE_FRAMES_THRESHOLD + 1 - s.silence_frames) := by
  intro post
  induction post with
  | nil =>
    intro s _ _ _ hj hlen
    exfalso
    simp [NON_RELEVANT_SILENCE_FRAMES_THRESHOLD] at hj hlen
    omega
  | cons f fs ih =>
    intro s h hsp hhe hj hlen
    obtain ⟨buf, sf, he, sp⟩ := s
    simp only at hsp hhe hj hlen ⊢
    subst hsp
    have hf : is_speech_frame f = false := h f (List.mem_cons_self f fs)
    have hn : ¬(SILENCE_FRAMES_THRESHOLD < sf + 1 ∧
        HIGH_ENERGY_FRAMES_THRESHOLD < he) := by
      intro hc; omega
    by_cases hcase : sf = NON_RELEVANT_SILENCE_FRAMES_THRESHOLD
    · subst hcase
      rw [vadRun_cons_inr _ f fs _ _
        (vadStep_silence_timeout _ f hf rfl hn (Nat.lt_succ_self _))]
      simp
    · have hlt : sf < NON_RELEVANT_SILENCE_FRAMES_THRESHOLD := lt_of_le_of_ne hj hcase
      have hcont := vadStep_silence_cont ⟨buf, sf, he, true⟩ f hf rfl hn
        (by simp at hlt ⊢; omega)
      rw [vadRun_cons_inl _ f fs _ hcont]
      rw [ih ⟨buf ++ [f], sf + 1, he, true⟩
        (fun g hg => h g (List.mem_cons_of_mem f hg)) rfl hhe
        (by simpa using hlt) (by simp at hlen ⊢; omega)]
      have htake : NON_RELEVANT_SILENCE_FRAMES_THRESHOLD - sf =
          (NON_RELEVANT_SILENCE_FRAMES_THRESHOLD - (sf + 1)) + 1 := by omega
      simp [Prod.ext_iff, VadState.mk.injEq, htake, List.take_succ_cons]
      omega

lemma vadRun_silence_idle : ∀ (post : List (List Int)) (s : VadState),
    (∀ f ∈ post, is_speech_frame f = false) → s.speaking = false →
    vadRun s post = (s, none, post.length) ∧
      ∀ t ∈ vadTrace s post, t = s := by
  intro post
  induction post with
  | nil => intro s _ _; exact ⟨rfl, by simp [vadTrace]⟩
  | cons f fs ih =>
    intro s h hsp
    have hf : is_speech_frame f = false := h f (List.mem_cons_self f fs)
    have hstep := vadStep_silence_idle s f hf hsp
    have ihx := ih s (fun g hg => h g (List.mem_cons_of_mem f hg)) hsp
    constructor
    · rw [vadRun_cons_inl s f fs s hstep, ihx.1]; simp
    · intro t ht
      rw [vadTrace, hstep] at ht
      rcases List.mem_cons.mp ht with h1 | h1
      · exact h1
      · exact ihx.2 t h1

lemma vadRun_append : ∀ (xs ys : List (List Int)) (s : VadState),
    (vadRun s xs).2.1 = none →
    vadRun s (xs ++ ys) =
      ((vadRun (vadRun s xs).1 ys).1, (vadRun (vadRun s xs).1 ys).2.1,
        (vadRun s xs).2.2 + (vadRun (vadRun s xs).1 ys).2.2) := by
  intro xs
  induction xs with
  | nil => intro ys s _; simp [vadRun]
  | cons f fs ih =>
    intro ys s hnone
    cases hstep : vadStep s f with
    | inl s1 =>
      rw [vadRun_cons_inl s f fs s1 hstep] at hnone ⊢
      rw [List.cons_append, vadRun_cons_inl s f (fs ++ ys) s1 hstep]
      rw [ih ys s1 hnone]
      simp [Prod.ext_iff]
      omega
    | inr p =>
      obtain ⟨s1, r⟩ := p
      rw [vadRun_cons_inr s f fs s1 r hstep] at hnone
      simp at hnone

lemma vadStep_high_energy_inl (s : VadState) (f : List Int) (s1 : VadState)
    (h : vadStep s f = Sum.inl s1) :
    s1.high_energy ≤ s.high_energy + (if is_speech_frame f = true then 1 else 0) := by
  unfold vadStep at h
  split_ifs at h
  all_goals
    first
      | exact Sum.noConfusion h
      | (rw [Sum.inl.injEq] at h; subst h; simp_all)

lemma vadStep_high_energy_inr (s : VadState) (f : List Int) (s1 : VadState)
    (r : StopReason) (h : vadStep s f = Sum.inr (s1, r)) :
    s1.high_energy = s.high_energy := by
  unfold vadStep at h
  split_ifs at h
  all_goals
    first
      | exact Sum.noConfusion h
      | (rw [Sum.inr.injEq, Prod.mk.injEq] at h; rw [← h.1])

lemma vadTrace_high_energy_le : ∀ (fs : List (List Int)) (s : VadState),
    ∀ t ∈ vadTrace s fs,
    t.high_energy ≤ s.high_energy +
      fs.countP (fun f => is_speech_frame f) := by
  intro fs
  induction fs with
  | nil => intro s t ht; simp [vadTrace] at ht
  | cons f fs ih =>
    intro s t ht
    rw [List.countP_cons]
    cases hstep : vadStep s f with
    | inl s1 =>
      rw [vadTrace, hstep] at ht
      simp only at ht
      rcases List.mem_cons.mp ht with h1 | h1
      · subst h1; omega
      · have hb := ih s1 t h1
        have hs1 := vadStep_high_energy_inl s f s1 hstep
        by_cases hsf : is_speech_frame f = true
        · simp [hsf] at hs1 ⊢; omega
        · simp [hsf] at hs1 ⊢; omega
    | inr p =>
      obtain ⟨s1, r⟩ := p
      rw [vadTrace, hstep] at ht
      simp only at ht
      rcases List.mem_cons.mp ht with h1 | h1
      · subst h1; omega
      · simp at h1

lemma countP_all_true {α : Type} (p : α → Bool) :
    ∀ (l : List α), (∀ a ∈ l, p a = true) → l.countP p = l.length := by
  intro l
  induction l with
  | nil => intro _; rfl
  | cons a l ih =>
    intro h
    rw [List.countP_cons, ih (fun b hb => h b (List.mem_cons_of_mem a hb)),
      if_pos (h a (List.mem_cons_self a l))]
    simp

lemma countP_all_false {α : Type} (p : α → Bool) :
    ∀ (l : List α), (∀ a ∈ l, p a = false) → l.countP p = 0 := by
  intro l
  induction l with
  | nil => intro _; rfl
  | cons a l ih =>
    intro h
    rw [List.countP_cons, ih (fun b hb => h b (List.mem_cons_of_mem a hb))]
    simp [h a (List.mem_cons_self a l)]

lemma vadStep_buffer_inr (s : VadState) (f : List Int) (s1 : VadState)
    (r : StopReason) (h : vadStep s f = Sum.inr (s1, r)) :
    s1.buffer = s.buffer := by
  unfold vadStep at h
  split_ifs at h
  all_goals
    first
      | exact Sum.noConfusion h
      | (rw [Sum.inr.injEq, Prod.mk.injEq] at h; rw [← h.1])

lemma vadRun_speech_then_silence (pre post : List (List Int))
    (hpre : ∀ f ∈ pre, is_speech_frame f = true)
    (hpost : ∀ f ∈ post, is_speech_frame f = false)
    (hN : HIGH_ENERGY_FRAMES_THRESHOLD < pre.length)
    (hM : SILENCE_FRAMES_THRESHOLD < post.length) :
    vadRun vadInit (pre ++ post) =
      (⟨pre ++ post.take SILENCE_FRAMES_THRESHOLD,
          SILENCE_FRAMES_THRESHOLD + 1, pre.length, true⟩,
        some StopReason.confirmedSilence,
        pre.length + (SILENCE_FRAMES_THRESHOLD + 1)) := by
  have hne : pre ≠ [] := by
    intro hc; subst hc; simp [HIGH_ENERGY_FRAMES_THRESHOLD] at hN
  have hmid : vadRun vadInit pre = (⟨pre, 0, pre.length, true⟩, none, pre.length) := by
    rw [vadRun_speech_all pre vadInit hpre hne]; simp [vadInit]
  have happ := vadRun_append pre post vadInit (by rw [hmid])
  rw [hmid] at happ
  have hconf := vadRun_silence_confirmed post ⟨pre, 0, pre.length, true⟩ hpost rfl
    hN (Nat.zero_le _) (by simpa using hM)
  rw [hconf] at happ
  simpa using happ

/-! ## Claim theorems about the voice activity detector -/

/-- C1: for every sequence of N speech-classified frames with
N > HIGH_ENERGY_FRAMES_THRESHOLD followed by M silence frames with
M > SILENCE_FRAMES_THRESHOLD, record_voice_until_silence stops via the
confirmed-silence branch after reading exactly
N + SILENCE_FRAMES_THRESHOLD + 1 frames, and the returned bytes are the
concatenation of the frames buffered while speaking (the N speech frames
and the first SILENCE_FRAMES_THRESHOLD silence frames). -/
theorem C1_confirmed_silence_stop (pre post : List (List Int))
    (hpre : ∀ f ∈ pre, is_speech_frame f = true)
    (hpost : ∀ f ∈ post, is_speech_frame f = false)
    (hN : HIGH_ENERGY_FRAMES_THRESHOLD < pre.length)
    (hM : SILENCE_FRAMES_THRESHOLD < post.length) :
    (vadRun vadInit (pre ++ post)).2.1 = some StopReason.confirmedSilence ∧
    (vadRun vadInit (pre ++ post)).2.2 = pre.length + SILENCE_FRAMES_THRESHOLD + 1 ∧
    record_voice_until_silence (pre ++ post) =
      (pre ++ post.take SILENCE_FRAMES_THRESHOLD).flatten := by
  have h := vadRun_speech_then_silence pre post hpre hpost hN hM
  refine ⟨by rw [h], ?_, ?_⟩
  · rw [h]
    show pre.length + (SILENCE_FRAMES_THRESHOLD + 1) =
      pre.length + SILENCE_FRAMES_THRESHOLD + 1
    omega
  · unfold record_voice_until_silence
    rw [h]

/-- C1 witness: six speech frames followed by twenty-one silence frames
stop via confirmed silence after 27 frames with the first 26 buffered. -/
theorem C1_confirmed_silence_stop_witness :
    (vadRun vadInit (preEx6 ++ postEx21)).2.1 = some StopReason.confirmedSilence ∧
    (vadRun vadInit (preEx6 ++ postEx21)).2.2 =
      preEx6.length + SILENCE_FRAMES_THRESHOLD + 1 ∧
    record_voice_until_silence (preEx6 ++ postEx21) =
      (preEx6 ++ postEx21.take SILENCE_FRAMES_THRESHOLD).flatten :=
  C1_confirmed_silence_stop preEx6 postEx21 all_speech_preEx6
    all_silence_postEx21 (by decide) (by decide)

/-- C2: for every frame of int16 samples, the energy the classifier
computes (in wrapping int32 arithmetic) equals the mean of the true
squared sample values; the zero-crossing rate is 0 on frames of length at
most one and otherwise is the count of adjacent sign changes divided by
(length - 1); and the frame is classified as speech exactly when the
energy exceeds ENERGY_THRESHOLD and the rate exceeds ZCR_MIN. -/
theorem C2_frame_classification (xs : List Int)
    (h : ∀ s ∈ xs, -32768 ≤ s ∧ s < 32768) :
    frameEnergy xs = specEnergy xs ∧
    (xs.length ≤ 1 → frameZcr xs = 0) ∧
    (1 < xs.length →
      frameZcr xs = (specSignChanges xs : ℚ) / ((xs.length - 1 : Nat) : ℚ)) ∧
    (is_speech_frame xs = true ↔
      ENERGY_THRESHOLD < frameEnergy xs ∧ ZCR_MIN < frameZcr xs) := by
  refine ⟨frameEnergy_eq_specEnergy xs h, ?_, ?_, ?_⟩
  · intro hlen; rw [frameZcr, if_pos hlen]
  · intro hlen
    rw [frameZcr, if_neg (by omega), signDiffCount_eq_specSignChanges]
  · unfold is_speech_frame
    by_cases hlen : xs.length = 0
    · rw [if_pos hlen]
      have hxs : xs = [] := List.length_eq_zero.mp hlen
      subst hxs
      constructor
      · intro hc; exact absurd hc (by simp)
      · intro hc
        exfalso
        have : frameEnergy [] = 0 := by
          simp [frameEnergy]
        rw [this] at hc
        have : (0 : ℚ) < ENERGY_THRESHOLD := by norm_num [ENERGY_THRESHOLD]
        exact absurd hc.1 (by linarith)
    · rw [if_neg hlen]
      simp

/-- C2 witness: the frame [1100, -1100] satisfies the int16 bounds and
the classification equations. -/
theorem C2_frame_classification_witness :
    frameEnergy speechFrameEx = specEnergy speechFrameEx ∧
    (speechFrameEx.length ≤ 1 → frameZcr speechFrameEx = 0) ∧
    (1 < speechFrameEx.length →
      frameZcr speechFrameEx =
        (specSignChanges speechFrameEx : ℚ) / ((speechFrameEx.length - 1 : Nat) : ℚ)) ∧
    (is_speech_frame speechFrameEx = true ↔
      ENERGY_THRESHOLD < frameEnergy speechFrameEx ∧
        ZCR_MIN < frameZcr speechFrameEx) :=
  C2_frame_classification speechFrameEx (by decide)

/-- C3: for exactly three speech-classified frames followed by
NON_RELEVANT_SILENCE_FRAMES_THRESHOLD + 1 silence frames, the loop stops
via the timeout branch, and the confirmed-silence condition is satisfied
at no state of the run (the cumulative high-energy count never exceeds
HIGH_ENERGY_FRAMES_THRESHOLD). -/
theorem C3_timeout_stop (pre post : List (List Int))
    (hpre : ∀ f ∈ pre, is_speech_frame f = true)
    (hpost : ∀ f ∈ post, is_speech_frame f = false)
    (hN : pre.length = 3)
    (hM : post.length = NON_RELEVANT_SILENCE_FRAMES_THRESHOLD + 1) :
    (vadRun vadInit (pre ++ post)).2.1 = some StopReason.timeout ∧
    ∀ t ∈ vadTrace vadInit (pre ++ post),
      ¬(SILENCE_FRAMES_THRESHOLD < t.silence_frames + 1 ∧
        HIGH_ENERGY_FRAMES_THRESHOLD < t.high_energy) := by
  constructor
  · have hne : pre ≠ [] := by intro hc; subst hc; simp at hN
    have hmid : vadRun vadInit pre = (⟨pre, 0, pre.length, true⟩, none, pre.length) := by
      rw [vadRun_speech_all pre vadInit hpre hne]; simp [vadInit]
    have happ := vadRun_append pre post vadInit (by rw [hmid])
    rw [hmid] at happ
    have htime := vadRun_silence_timeout post ⟨pre, 0, pre.length, true⟩ hpost rfl
      (by simp [hN, HIGH_ENERGY_FRAMES_THRESHOLD]) (Nat.zero_le _)
      (by simp [hM])
    rw [htime] at happ
    rw [happ]
  · intro t ht hcond
    have hbound := vadTrace_high_energy_le (pre ++ post) vadInit t ht
    rw [List.countP_append,
      countP_all_true _ pre hpre, countP_all_false _ post hpost] at hbound
    simp [vadInit, hN, HIGH_ENERGY_FRAMES_THRESHOLD] at hbound hcond
    omega

/-- C3 witness: three speech frames followed by 121 silence frames stop
via timeout with the confirmed-silence condition never satisfied. -/
theorem C3_timeout_stop_witness :
    (vadRun vadInit (preEx3 ++ postEx121)).2.1 = some StopReason.timeout ∧
    ∀ t ∈ vadTrace vadInit (preEx3 ++ postEx121),
      ¬(SILENCE_FRAMES_THRESHOLD < t.silence_frames + 1 ∧
        HIGH_ENERGY_FRAMES_THRESHOLD < t.high_energy) :=
  C3_timeout_stop preEx3 postEx121 all_speech_preEx3 all_silence_postEx121
    (by decide) (by decide)

/-- C4: at every iteration of the loop, a speech-classified frame resets
the silence counter to 0; the high-energy counter never decreases; and
the buffer changes only if the frame is classified as speech or the
detector was already speaking. -/
theorem C4_step_invariants (s : VadState) (f : List Int) :
    (is_speech_frame f = true → (vadStepState s f).silence_frames = 0) ∧
    s.high_energy ≤ (vadStepState s f).high_energy ∧
    ((vadStepState s f).buffer ≠ s.buffer →
      is_speech_frame f = true ∨ s.speaking = true) := by
  by_cases hf : is_speech_frame f = true
  · rw [vadStepState, vadStep_speech s f hf]
    exact ⟨fun _ => rfl, Nat.le_succ _, fun _ => Or.inl hf⟩
  · have hf0 : is_speech_frame f = false := by
      rw [← Bool.not_eq_true]; exact hf
    by_cases hs : s.speaking = true
    · by_cases hc : SILENCE_FRAMES_THRESHOLD < s.silence_frames + 1 ∧
        HIGH_ENERGY_FRAMES_THRESHOLD < s.high_energy
      · rw [vadStepState, vadStep_silence_confirmed s f hf0 hs hc.1 hc.2]
        exact ⟨fun hx => absurd hx hf, Nat.le_refl _, fun hb => absurd rfl hb⟩
      · by_cases ht : NON_RELEVANT_SILENCE_FRAMES_THRESHOLD < s.silence_frames + 1
        · rw [vadStepState, vadStep_silence_timeout s f hf0 hs hc ht]
          exact ⟨fun hx => absurd hx hf, Nat.le_refl _, fun hb => absurd rfl hb⟩
        · rw [vadStepState, vadStep_silence_cont s f hf0 hs hc (Nat.not_lt.mp ht)]
          exact ⟨fun hx => absurd hx hf, Nat.le_refl _, fun _ => Or.inr hs⟩
    · have hs0 : s.speaking = false := by
        rw [← Bool.not_eq_true]; exact hs
      rw [vadStepState, vadStep_silence_idle s f hf0 hs0]
      exact ⟨fun hx => absurd hx hf, Nat.le_refl _, fun hb => absurd rfl hb⟩

/-- C4 witness: one step from the initial state on a speech frame resets
the silence counter, does not decrease the high-energy counter, and the
buffer change is justified by the speech classification. -/
theorem C4_step_invariants_witness :
    (vadStepState vadInit speechFrameEx).silence_frames = 0 ∧
    vadInit.high_energy ≤ (vadStepState vadInit speechFrameEx).high_energy ∧
    (is_speech_frame speechFrameEx = true ∨ vadInit.speaking = true) :=
  ⟨(C4_step_invariants vadInit speechFrameEx).1 is_speech_frame_speechFrameEx,
   (C4_step_invariants vadInit speechFrameEx).2.1,
   (C4_step_invariants vadInit speechFrameEx).2.2 (by
      rw [vadStepState, vadStep_speech _ _ is_speech_frame_speechFrameEx]
      simp [vadInit])⟩

/-- C5: on a frame sequence with no speech-classified frame, the detector
never sets the speaking flag, never buffers a frame, and ends with an
empty buffer. -/
theorem C5_silence_only_noop (frames : List (List Int))
    (h : ∀ f ∈ frames, is_speech_frame f = false) :
    (∀ t ∈ vadTrace vadInit frames, t.speaking = false ∧ t.buffer = []) ∧
    (vadRun vadInit frames).1.speaking = false ∧
    (vadRun vadInit frames).1.buffer = [] ∧
    record_voice_until_silence frames = [] := by
  have hx := vadRun_silence_idle frames vadInit h rfl
  refine ⟨?_, ?_, ?_, ?_⟩
  · intro t ht; rw [hx.2 t ht]; exact ⟨rfl, rfl⟩
  · rw [hx.1]; rfl
  · rw [hx.1]; rfl
  · unfold record_voice_until_silence
    rw [hx.1]; rfl

/-- C5 witness: twenty-one silence frames leave the detector idle with an
empty buffer. -/
theorem C5_silence_only_noop_witness :
    (∀ t ∈ vadTrace vadInit postEx21, t.speaking = false ∧ t.buffer = []) ∧
    (vadRun vadInit postEx21).1.speaking = false ∧
    (vadRun vadInit postEx21).1.buffer = [] ∧
    record_voice_until_silence postEx21 = [] :=
  C5_silence_only_noop postEx21 all_silence_postEx21

/-- C9: the frame on which a stop branch fires is never appended to the
buffer; in the speech-then-silence scenario the returned buffer holds the
speech frames plus exactly SILENCE_FRAMES_THRESHOLD silence frames. -/
theorem C9_trigger_frame_not_buffered :
    (∀ (s : VadState) (f : List Int) (s1 : VadState) (r : StopReason),
      vadStep s f = Sum.inr (s1, r) → s1.buffer = s.buffer) ∧
    (∀ pre post : List (List Int),
      (∀ f ∈ pre, is_speech_frame f = true) →
      (∀ f ∈ post, is_speech_frame f = false) →
      HIGH_ENERGY_FRAMES_THRESHOLD < pre.length →
      SILENCE_FRAMES_THRESHOLD < post.length →
      (vadRun vadInit (pre ++ post)).1.buffer =
        pre ++ post.take SILENCE_FRAMES_THRESHOLD ∧
      ((vadRun vadInit (pre ++ post)).1.buffer).length =
        pre.length + SILENCE_FRAMES_THRESHOLD) := by
  constructor
  · exact vadStep_buffer_inr
  · intro pre post hpre hpost hN hM
    have h := vadRun_speech_then_silence pre post hpre hpost hN hM
    rw [h]
    constructor
    · rfl
    · simp
      omega

/-- C9 witness: a concrete confirmed-silence break keeps the buffer
unchanged, and the six-speech/twenty-one-silence run buffers exactly
6 + 20 frames. -/
theorem C9_trigger_frame_not_buffered_witness :
    (⟨[], 21, 6, true⟩ : VadState).buffer = (⟨[], 20, 6, true⟩ : VadState).buffer ∧
    (vadRun vadInit (preEx6 ++ postEx21)).1.buffer =
      preEx6 ++ postEx21.take SILENCE_FRAMES_THRESHOLD ∧
    ((vadRun vadInit (preEx6 ++ postEx21)).1.buffer).length =
      preEx6.length + SILENCE_FRAMES_THRESHOLD :=
  ⟨C9_trigger_frame_not_buffered.1 ⟨[], 20, 6, true⟩ silenceFrameEx
      ⟨[], 21, 6, true⟩ StopReason.confirmedSilence
      (vadStep_silence_confirmed ⟨[], 20, 6, true⟩ silenceFrameEx
        is_speech_frame_silenceFrameEx rfl (by decide) (by decide)),
   (C9_trigger_frame_not_buffered.2 preEx6 postEx21 all_speech_preEx6
      all_silence_postEx21 (by decide) (by decide)).1,
   (C9_trigger_frame_not_buffered.2 preEx6 postEx21 all_speech_preEx6
      all_silence_postEx21 (by decide) (by decide)).2⟩

/-! ## Claim theorems about the backend services -/

/-- C6 counterexample: after a successful whisper initialization followed
by cleanup, the STT availability flag is false yet transcribe dispatches
to the whisper provider instead of returning the unavailable result, so
the claim that every invoke with available = false fails immediately
without a provider attempt is false. -/
theorem C6_whisper_bypass_counterexample :
    sttAfterCleanup.available = false ∧
    sttTranscribeDispatch sttAfterCleanup = STTAction.attemptWhisper := by
  constructor <;> rfl

/-- C6 amended: the TTS and LLM invokes return the unavailable result
whenever the availability flag is false, for every payload; the STT
invoke does so whenever the stored provider is not whisper, while the
whisper path never consults the flag. -/
theorem C6_amended_unavailable_guard :
    (∀ s : TTSState, s.available = false →
      ttsSynthesizeDispatch s = TTSAction.unavailableReturn) ∧
    (∀ s : LLMState, s.available = false →
      llmGenerateDispatch s = LLMAction.unavailableReturn) ∧
    (∀ s : STTState, s.available = false → s.provider ≠ some "whisper" →
      sttTranscribeDispatch s = STTAction.unavailableReturn) := by
  refine ⟨?_, ?_, ?_⟩
  · intro s h; simp [ttsSynthesizeDispatch, h]
  · intro s h; simp [llmGenerateDispatch, h]
  · intro s h hp; simp [sttTranscribeDispatch, h, hp]

/-- C6 amended witness: the freshly constructed services all return the
unavailable result. -/
theorem C6_amended_unavailable_guard_witness :
    ttsSynthesizeDispatch ttsNew = TTSAction.unavailableReturn ∧
    llmGenerateDispatch llmNew = LLMAction.unavailableReturn ∧
    sttTranscribeDispatch sttNew = STTAction.unavailableReturn :=
  ⟨C6_amended_unavailable_guard.1 ttsNew rfl,
   C6_amended_unavailable_guard.2.1 llmNew rfl,
   C6_amended_unavailable_guard.2.2 sttNew rfl (by decide)⟩

/-- C7 counterexample: from a state where a previous initialize succeeded
with openai, a failing initialize with an unsupported provider name
returns early and leaves available = true and the old provider in place,
so the claim that every failing initialize from every prior state leaves
available = false and no active provider is false. -/
theorem C7_stale_state_counterexample :
    (sttInitService (sttInitService sttNew "openai" true) "doesnotexist" false).available
        = true ∧
    (sttInitService (sttInitService sttNew "openai" true) "doesnotexist" false).provider
        = some "openai" := by
  constructor <;> rfl

/-- C7 amended: from the freshly constructed state every failing
initialize (unsupported name or raising helper) leaves available = false
and no provider.  From an arbitrary prior state, an initialize whose
provider helper raises on a supported name sets available = false and
changes nothing else (the stored provider in particular is kept), and an
initialize with an unsupported name returns early leaving the whole state
unchanged, the availability flag from an earlier success included. -/
theorem C7_amended_failed_init :
    (∀ name ok, initFailing (sttKnown name) ok →
      (sttInitService sttNew name ok).available = false ∧
      (sttInitService sttNew name ok).provider = none) ∧
    (∀ name ok, initFailing (ttsKnown name) ok →
      (ttsInitService ttsNew name ok).available = false ∧
      (ttsInitService ttsNew name ok).provider = none) ∧
    (∀ name ok, initFailing (llmKnown name) ok →
      (llmInitService llmNew name ok).available = false ∧
      (llmInitService llmNew name ok).provider = none) ∧
    (∀ (s : STTState) (name : String), sttKnown name →
      sttInitService s name false = { s with available := false }) ∧
    (∀ (s : STTState) (name : String), ¬sttKnown name → ∀ ok,
      sttInitService s name ok = s) ∧
    (∀ (s : TTSState) (name : String), ttsKnown name →
      ttsInitService s name false = { s with available := false }) ∧
    (∀ (s : TTSState) (name : String), ¬ttsKnown name → ∀ ok,
      ttsInitService s name ok = s) ∧
    (∀ (s : LLMState) (name : String), llmKnown name →
      llmInitService s name false = { s with available := false }) ∧
    (∀ (s : LLMState) (name : String), ¬llmKnown name → ∀ ok,
      llmInitService s name ok = s) := by
  refine ⟨?_, ?_, ?_, ?_, ?_, ?_, ?_, ?_, ?_⟩
  · intro name ok hfail
    unfold sttInitService
    by_cases h1 : name = "whisper"
    · rcases hfail with hk | hok
      · exact absurd (Or.inl h1) hk
      · subst hok; simp [h1, sttNew]
    · by_cases h2 : name = "openai" ∨ name = "google" ∨ name = "azure"
      · rcases hfail with hk | hok
        · exact absurd (Or.inr h2) hk
        · subst hok; simp [h1, h2, sttNew]
      · simp [h1, h2, sttNew]
  · intro name ok hfail
    unfold ttsInitService
    by_cases h2 : name = "openai" ∨ name = "google" ∨ name = "azure" ∨
        name = "elevenlabs"
    · rcases hfail with hk | hok
      · exact absurd h2 hk
      · subst hok; simp [h2, ttsNew]
    · simp [h2, ttsNew]
  · intro name ok hfail
    unfold llmInitService
    by_cases h2 : name = "openai" ∨ name = "anthropic" ∨ name = "ollama"
    · rcases hfail with hk | hok
      · exact absurd h2 hk
      · subst hok; simp [h2, llmNew]
    · simp [h2, llmNew]
  · intro s name hk
    unfold sttInitService
    by_cases h1 : name = "whisper"
    · simp [h1]
    · have h2 : name = "openai" ∨ name = "google" ∨ name = "azure" := by
        rcases hk with h | h
        · exact absurd h h1
        · exact h
      simp [h1, h2]
  · intro s name hk ok
    unfold sttInitService
    have h1 : ¬name = "whisper" := fun hc => hk (Or.inl hc)
    have h2 : ¬(name = "openai" ∨ name = "google" ∨ name = "azure") :=
      fun hc => hk (Or.inr hc)
    simp [h1, h2]
  · intro s name hk
    unfold ttsKnown at hk
    unfold ttsInitService
    simp [hk]
  · intro s name hk ok
    unfold ttsKnown at hk
    unfold ttsInitService
    simp [hk]
  · intro s name hk
    unfold llmKnown at hk
    unfold llmInitService
    simp [hk]
  · intro s name hk ok
    unfold llmKnown at hk
    unfold llmInitService
    simp [hk]

/-- C7 amended witness: concrete failing initializations from the fresh
states, plus raising and unknown-name initializations from previously
initialized states, showing the provider kept on the raising path and the
whole state (available flag included) kept on the unknown-name path. -/
theorem C7_amended_failed_init_witness :
    ((sttInitService sttNew "nosuch" true).available = false ∧
      (sttInitService sttNew "nosuch" true).provider = none) ∧
    ((ttsInitService ttsNew "openai" false).available = false ∧
      (ttsInitService ttsNew "openai" false).provider = none) ∧
    ((llmInitService llmNew "ollama" false).available = false ∧
      (llmInitService llmNew "ollama" false).provider = none) ∧
    sttInitService sttAfterCleanup "whisper" false =
      { sttAfterCleanup with available := false } ∧
    sttInitService (sttInitService sttNew "openai" true) "doesnotexist" true =
      sttInitService sttNew "openai" true ∧
    ttsInitService (ttsInitService ttsNew "azure" true) "azure" false =
      { ttsInitService ttsNew "azure" true with available := false } ∧
    ttsInitService (ttsInitService ttsNew "azure" true) "whisper" true =
      ttsInitService ttsNew "azure" true ∧
    llmInitService (llmInitService llmNew "anthropic" true) "anthropic" false =
      { llmInitService llmNew "anthropic" true with available := false } ∧
    llmInitService (llmInitService llmNew "anthropic" true) "elevenlabs" true =
      llmInitService llmNew "anthropic" true :=
  ⟨C7_amended_failed_init.1 "nosuch" true (Or.inl (by unfold sttKnown; decide)),
   C7_amended_failed_init.2.1 "openai" false (Or.inr rfl),
   C7_amended_failed_init.2.2.1 "ollama" false (Or.inr rfl),
   C7_amended_failed_init.2.2.2.1 sttAfterCleanup "whisper" (Or.inl rfl),
   C7_amended_failed_init.2.2.2.2.1 (sttInitService sttNew "openai" true)
     "doesnotexist" (by unfold sttKnown; decide) true,
   C7_amended_failed_init.2.2.2.2.2.1 (ttsInitService ttsNew "azure" true)
     "azure" (Or.inr (Or.inr (Or.inl rfl))),
   C7_amended_failed_init.2.2.2.2.2.2.1 (ttsInitService ttsNew "azure" true)
     "whisper" (by unfold ttsKnown; decide) true,
   C7_amended_failed_init.2.2.2.2.2.2.2.1 (llmInitService llmNew "anthropic" true)
     "anthropic" (Or.inr (Or.inl rfl)),
   C7_amended_failed_init.2.2.2.2.2.2.2.2 (llmInitService llmNew "anthropic" true)
     "elevenlabs" (by unfold llmKnown; decide) true⟩

/-- C8: cleanup is idempotent for all three services: a second cleanup
changes nothing and the availability flag is false afterwards, from every
state. -/
theorem C8_cleanup_idempotent :
    (∀ s : STTState, sttCleanup (sttCleanup s) = sttCleanup s ∧
      (sttCleanup (sttCleanup s)).available = false) ∧
    (∀ s : TTSState, ttsCleanup (ttsCleanup s) = ttsCleanup s ∧
      (ttsCleanup (ttsCleanup s)).available = false) ∧
    (∀ s : LLMState, llmCleanup (llmCleanup s) = llmCleanup s ∧
      (llmCleanup (llmCleanup s)).available = false) :=
  ⟨fun _ => ⟨rfl, rfl⟩, fun _ => ⟨rfl, rfl⟩, fun _ => ⟨rfl, rfl⟩⟩

/-! ## Lemmas about the configuration sanitizer -/

lemma jvalBEq_sound_aux : ∀ n : Nat,
    (∀ a b : JVal, sizeOf a ≤ n → jvalBEq a b = true → a = b) ∧
    (∀ l1 l2 : List JVal, sizeOf l1 ≤ n → jvalListBEq l1 l2 = true → l1 = l2) ∧
    (∀ e1 e2 : List (String × JVal), sizeOf e1 ≤ n →
      jvalEntriesBEq e1 e2 = true → e1 = e2) := by
  intro n
  induction n using Nat.strong_induction_on with
  | _ n IH =>
    refine ⟨?_, ?_, ?_⟩
    · intro a b ha h
      cases a with
      | str x =>
        cases b <;> simp only [jvalBEq, Bool.false_eq_true, beq_iff_eq] at h
        rw [h]
      | num x =>
        cases b <;> simp only [jvalBEq, Bool.false_eq_true, beq_iff_eq] at h
        rw [h]
      | boolean x =>
        cases b <;> simp only [jvalBEq, Bool.false_eq_true, beq_iff_eq] at h
        rw [h]
      | null =>
        cases b <;> simp only [jvalBEq, Bool.false_eq_true] at h
        rfl
      | arr xs =>
        cases b with
        | arr ys =>
          simp only [jvalBEq] at h
          simp only [JVal.arr.sizeOf_spec] at ha
          exact congrArg JVal.arr ((IH (n - 1) (by omega)).2.1 xs ys (by omega) h)
        | _ => simp only [jvalBEq, Bool.false_eq_true] at h
      | obj xs =>
        cases b with
        | obj ys =>
          simp only [jvalBEq] at h
          simp only [JVal.obj.sizeOf_spec] at ha
          exact congrArg JVal.obj ((IH (n - 1) (by omega)).2.2 xs ys (by omega) h)
        | _ => simp only [jvalBEq, Bool.false_eq_true] at h
    · intro l1 l2 h1 h
      cases l1 with
      | nil =>
        cases l2 with
        | nil => rfl
        | cons b bs => simp only [jvalListBEq, Bool.false_eq_true] at h
      | cons a as =>
        cases l2 with
        | nil => simp only [jvalListBEq, Bool.false_eq_true] at h
        | cons b bs =>
          simp only [jvalListBEq, Bool.and_eq_true] at h
          simp only [List.cons.sizeOf_spec] at h1
          have e1 := (IH (n - 1) (by omega)).1 a b (by omega) h.1
          have e2 := (IH (n - 1) (by omega)).2.1 as bs (by omega) h.2
          rw [e1, e2]
    · intro e1 e2 h1 h
      cases e1 with
      | nil =>
        cases e2 with
        | nil => rfl
        | cons b bs =>
          obtain ⟨k2, v2⟩ := b
          simp only [jvalEntriesBEq, Bool.false_eq_true] at h
      | cons a as =>
        obtain ⟨k1, v1⟩ := a
        cases e2 with
        | nil => simp only [jvalEntriesBEq, Bool.false_eq_true] at h
        | cons b bs =>
          obtain ⟨k2, v2⟩ := b
          simp only [jvalEntriesBEq, Bool.and_eq_true, beq_iff_eq] at h
          simp only [List.cons.sizeOf_spec, Prod.mk.sizeOf_spec] at h1
          have ev := (IH (n - 1) (by omega)).1 v1 v2 (by omega) h.1.2
          have es := (IH (n - 1) (by omega)).2.2 as bs (by omega) h.2
          rw [h.1.1, ev, es]

lemma jvalBEq_sound (a b : JVal) (h : jvalBEq a b = true) : a = b :=
  (jvalBEq_sound_aux (sizeOf a)).1 a b le_rfl h

lemma sensEquiv_sanitize_aux : ∀ n : Nat,
    (∀ a b : JVal, sizeOf a ≤ n → sensEquiv a b = true →
      sanitizeVal a = sanitizeVal b) ∧
    (∀ e1 e2 : List (String × JVal), sizeOf e1 ≤ n →
      sensEquivEntries e1 e2 = true → sanitizeEntries e1 = sanitizeEntries e2) := by
  intro n
  induction n using Nat.strong_induction_on with
  | _ n IH =>
    refine ⟨?_, ?_⟩
    · intro a b ha h
      cases a with
      | obj xs =>
        cases b with
        | obj ys =>
          simp only [sensEquiv] at h
          simp only [JVal.obj.sizeOf_spec] at ha
          simp only [sanitizeVal]
          exact congrArg JVal.obj ((IH (n - 1) (by omega)).2 xs ys (by omega) h)
        | str y => simp only [sensEquiv, jvalBEq, Bool.false_eq_true] at h
        | num y => simp only [sensEquiv, jvalBEq, Bool.false_eq_true] at h
        | boolean y => simp only [sensEquiv, jvalBEq, Bool.false_eq_true] at h
        | null => simp only [sensEquiv, jvalBEq, Bool.false_eq_true] at h
        | arr y => simp only [sensEquiv, jvalBEq, Bool.false_eq_true] at h
      | str x =>
        cases b <;> simp only [sensEquiv] at h <;>
          exact congrArg sanitizeVal (jvalBEq_sound _ _ h)
      | num x =>
        cases b <;> simp only [sensEquiv] at h <;>
          exact congrArg sanitizeVal (jvalBEq_sound _ _ h)
      | boolean x =>
        cases b <;> simp only [sensEquiv] at h <;>
          exact congrArg sanitizeVal (jvalBEq_sound _ _ h)
      | null =>
        cases b <;> simp only [sensEquiv] at h <;>
          exact congrArg sanitizeVal (jvalBEq_sound _ _ h)
      | arr x =>
        cases b <;> simp only [sensEquiv] at h <;>
          exact congrArg sanitizeVal (jvalBEq_sound _ _ h)
    · intro e1 e2 h1 h
      cases e1 with
      | nil =>
        cases e2 with
        | nil => rfl
        | cons b bs =>
          obtain ⟨k2, v2⟩ := b
          simp only [sensEquivEntries, Bool.false_eq_true] at h
      | cons a as =>
        obtain ⟨k1, v1⟩ := a
        cases e2 with
        | nil => simp only [sensEquivEntries, Bool.false_eq_true] at h
        | cons b bs =>
          obtain ⟨k2, v2⟩ := b
          simp only [sensEquivEntries, Bool.and_eq_true, beq_iff_eq] at h
          simp only [List.cons.sizeOf_spec, Prod.mk.sizeOf_spec] at h1
          have tl := (IH (n - 1) (by omega)).2 as bs (by omega) h.2
          simp only [sanitizeEntries]
          rw [← h.1.1, tl]
          by_cases hs : isSensitiveKey k1 = true
          · simp [hs]
          · have hs0 : isSensitiveKey k1 = false := by
              rw [← Bool.not_eq_true]; exact hs
            have hv : sensEquiv v1 v2 = true := by
              have hx := h.1.2
              rw [hs0] at hx
              simpa using hx
            have hd := (IH (n - 1) (by omega)).1 v1 v2 (by omega) hv
            simp [hs0, hd]

lemma sensEquiv_sanitize (a b : JVal) (h : sensEquiv a b = true) :
    sanitizeVal a = sanitizeVal b :=
  (sensEquiv_sanitize_aux (sizeOf a)).1 a b le_rfl h

/-! ## Claim theorems about the configuration sanitizer -/

/-- C10 counterexample: a sensitive key inside a dictionary nested in an
array is not sanitized (the secret value survives verbatim), and two
configurations differing only in that sensitive value produce different
sanitized outputs, so both parts of the claim fail at this input. -/
theorem C10_array_bypass_counterexample :
    get_sanitized_config configArrayX = configArrayX ∧
    get_sanitized_config configArrayX ≠ get_sanitized_config configArrayY := by
  have hx : get_sanitized_config configArrayX = configArrayX := rfl
  have hy : get_sanitized_config configArrayY = configArrayY := rfl
  refine ⟨hx, ?_⟩
  rw [hx, hy]
  intro hc
  simp [configArrayX, configArrayY] at hc

/-- C10 amended: the sanitizer replaces the value of a sensitive key, and
recurses into the value of a non-sensitive key, at every nesting depth
reachable through dictionaries only; arrays are returned untouched (so
sensitive keys below an array survive); and the sanitized output is
identical for two configurations that agree everywhere except at values
of sensitive keys reachable through dictionaries only. -/
theorem C10_amended_sanitizer :
    (∀ a b : JVal, sensEquiv a b = true →
      get_sanitized_config a = get_sanitized_config b) ∧
    (∀ xs : List JVal, get_sanitized_config (JVal.arr xs) = JVal.arr xs) ∧
    (∀ (k : String) (v : JVal) (kvs : List (String × JVal)),
      isSensitiveKey k = true →
      get_sanitized_config (JVal.obj ((k, v) :: kvs)) =
        JVal.obj ((k, JVal.str "***") :: sanitizeEntries kvs)) ∧
    (∀ (k : String) (v : JVal) (kvs : List (String × JVal)),
      isSensitiveKey k = false →
      get_sanitized_config (JVal.obj ((k, v) :: kvs)) =
        JVal.obj ((k, sanitizeVal v) :: sanitizeEntries kvs)) := by
  refine ⟨fun a b h => sensEquiv_sanitize a b h, ?_, ?_, ?_⟩
  · intro xs; rfl
  · intro k v kvs hk
    simp [get_sanitized_config, sanitizeVal, sanitizeEntries, hk]
  · intro k v kvs hk
    simp [get_sanitized_config, sanitizeVal, sanitizeEntries, hk]

/-- C10 amended witness: concrete instances of the four amended parts. -/
theorem C10_amended_sanitizer_witness :
    get_sanitized_config (JVal.obj [("api_key", JVal.str "x")]) =
      get_sanitized_config (JVal.obj [("api_key", JVal.str "y")]) ∧
    get_sanitized_config (JVal.arr [JVal.null]) = JVal.arr [JVal.null] ∧
    get_sanitized_config (JVal.obj [("api_key", JVal.str "x")]) =
      JVal.obj (("api_key", JVal.str "***") :: sanitizeEntries []) ∧
    get_sanitized_config (JVal.obj [("voice", JVal.str "alloy")]) =
      JVal.obj (("voice", sanitizeVal (JVal.str "alloy")) :: sanitizeEntries []) :=
  ⟨C10_amended_sanitizer.1 (JVal.obj [("api_key", JVal.str "x")])
      (JVal.obj [("api_key", JVal.str "y")]) (by
        have hk : isSensitiveKey "api_key" = true := by decide
        simp [sensEquiv, sensEquivEntries, hk]),
   C10_amended_sanitizer.2.1 [JVal.null],
   C10_amended_sanitizer.2.2.1 "api_key" (JVal.str "x") [] (by decide),
   C10_amended_sanitizer.2.2.2 "voice" (JVal.str "alloy") [] (by decide)⟩

end SmartPhone
